import Mathlib

/-!
Verification of the video-processing repository's specification.

The repository is an AWS-Lambda video-preview generator. Its core algorithm
(the Sample Planner `calculate_sample_seconds` and the Preview Assembler
`generate_video_preview`, both living in the `preview` module) is imported by
`lambda_function.py`; the planner is therefore modelled here from the spec
(§4.1), while `lambda_handler` and the module-level configuration loading are
embedded from `lambda_function.py` directly.

Real arithmetic (Python floats) is modelled exactly over `ℚ`; Python `int`
is modelled by `ℤ`.
-/

/-- Error signalled by the Sample Planner on malformed inputs (spec §4.1 /
§7: `InvalidInput`). -/
inductive PlanError where
  | invalidInput
deriving DecidableEq, Repr

deriving instance DecidableEq for Except

/-- Clamp `x` into the interval `[lo, hi]` (spec §4.1 step 4). -/
def clamp (x lo hi : ℚ) : ℚ := min (max x lo) hi

/-- Modelled from the spec: the Sample Planner of §4.1 — the function
`calculate_sample_seconds(duration, samples, sample_duration)` of the missing
`preview` module, which `lambda_function.py` imports.  Spec §4.1:
validation signals InvalidInput when `duration ≤ 0`, `sample_count < 1` or
`sample_duration ≤ 0`; if `duration ≤ sample_duration` return `[0]`; the
usable span is `duration - sample_duration`; for `sample_count = 1` return
the centered single sample `[usable_span / 2]`; otherwise distribute
`timestamp[i] = i * (usable_span / (sample_count - 1))` for
`i ∈ [0, sample_count - 1]`, clamping each timestamp to `[0, usable_span]`. -/
def calculate_sample_seconds (duration : ℚ) (sample_count : ℤ)
    (sample_duration : ℚ) : Except PlanError (List ℚ) :=
  if duration ≤ 0 ∨ sample_count < 1 ∨ sample_duration ≤ 0 then
    .error .invalidInput
  else if duration ≤ sample_duration then
    .ok [0]
  else
    let usable_span := duration - sample_duration
    if sample_count = 1 then
      .ok [usable_span / 2]
    else
      let step := usable_span / ((sample_count : ℚ) - 1)
      .ok ((List.range sample_count.toNat).map fun i : ℕ =>
        clamp ((i : ℚ) * step) 0 usable_span)

/-- The spec's name (§4.1 contract) for the Sample Planner. -/
def plan : ℚ → ℤ → ℚ → Except PlanError (List ℚ) := calculate_sample_seconds

theorem clamp_bounds (x hi : ℚ) (h : 0 ≤ hi) :
    0 ≤ clamp x 0 hi ∧ clamp x 0 hi ≤ hi :=
  ⟨le_min (le_max_right x 0) h, min_le_right _ _⟩

theorem clamp_eq_self (x hi : ℚ) (h0 : 0 ≤ x) (h1 : x ≤ hi) :
    clamp x 0 hi = x := by
  unfold clamp
  rw [max_eq_left h0, min_eq_left h1]

/-- In the multi-sample branch (`sd < D`, `1 < N`), the planner returns the
clamped even spread. -/
theorem plan_spread (D : ℚ) (N : ℤ) (sd : ℚ)
    (hsd : 0 < sd) (hD : sd < D) (hN : 1 < N) :
    plan D N sd = .ok ((List.range N.toNat).map fun i : ℕ =>
      clamp ((i : ℚ) * ((D - sd) / ((N : ℚ) - 1))) 0 (D - sd)) := by
  have hguard : ¬(D ≤ 0 ∨ N < 1 ∨ sd ≤ 0) := by
    push_neg
    exact ⟨by linarith, by omega, hsd⟩
  unfold plan calculate_sample_seconds
  rw [if_neg hguard, if_neg (by linarith : ¬ D ≤ sd), if_neg (by omega : ¬ N = 1)]

theorem step_pos (D : ℚ) (N : ℤ) (sd : ℚ) (hD : sd < D) (hN : 1 < N) :
    0 < (D - sd) / ((N : ℚ) - 1) := by
  have h1 : (1 : ℚ) < (N : ℚ) := by exact_mod_cast hN
  exact div_pos (by linarith) (by linarith)

theorem index_le_span (D : ℚ) (N : ℤ) (sd : ℚ) (i : ℕ)
    (hD : sd < D) (hN : 1 < N) (hi : i < N.toNat) :
    (i : ℚ) * ((D - sd) / ((N : ℚ) - 1)) ≤ D - sd := by
  have hiZ : (i : ℤ) ≤ N - 1 := by omega
  have hiQ : (i : ℚ) ≤ (N : ℚ) - 1 := by exact_mod_cast hiZ
  have hstep := step_pos D N sd hD hN
  have h1 : (1 : ℚ) < (N : ℚ) := by exact_mod_cast hN
  calc (i : ℚ) * ((D - sd) / ((N : ℚ) - 1))
      ≤ ((N : ℚ) - 1) * ((D - sd) / ((N : ℚ) - 1)) :=
        mul_le_mul_of_nonneg_right hiQ hstep.le
    _ = D - sd := by
        rw [← mul_div_assoc]
        exact mul_div_cancel_left₀ _ (by linarith)

/-- In the multi-sample branch the clamping is the identity, so the planner
returns the bare even spread. -/
theorem plan_spread_unclamped (D : ℚ) (N : ℤ) (sd : ℚ)
    (hsd : 0 < sd) (hD : sd < D) (hN : 1 < N) :
    plan D N sd = .ok ((List.range N.toNat).map fun i : ℕ =>
      (i : ℚ) * ((D - sd) / ((N : ℚ) - 1))) := by
  rw [plan_spread D N sd hsd hD hN]
  congr 1
  apply List.map_congr_left
  intro i hi
  have hiN : i < N.toNat := List.mem_range.mp hi
  exact clamp_eq_self _ _
    (mul_nonneg (Nat.cast_nonneg i) (step_pos D N sd hD hN).le)
    (index_le_span D N sd i hD hN hiN)

/-- The list of timestamps the planner returns (empty on error). -/
def planTimestamps (D : ℚ) (N : ℤ) (sd : ℚ) : List ℚ :=
  (plan D N sd).toOption.getD []

theorem planTimestamps_of_ok {D : ℚ} {N : ℤ} {sd : ℚ} {l : List ℚ}
    (h : plan D N sd = .ok l) : planTimestamps D N sd = l := by
  unfold planTimestamps
  rw [h]
  rfl

/-- Evaluation of spec §8 Scenario A. -/
theorem plan_eval_scenario_a : plan 10 4 2 = .ok [0, 8/3, 16/3, 8] := by
  simp only [plan, calculate_sample_seconds, clamp]
  norm_num [show (4:ℤ).toNat = 4 from rfl, List.range_succ, List.flatMap_cons,
    List.flatMap_nil, min_def, max_def]

/-- C1: for D > sd > 0 and N ≥ 2 the planner returns exactly N timestamps,
strictly increasing, each within [0, D - sd]. -/
theorem plan_count_strict_mono_bounds (D : ℚ) (N : ℤ) (sd : ℚ)
    (hsd : 0 < sd) (hD : sd < D) (hN : 2 ≤ N) :
    plan D N sd = .ok (planTimestamps D N sd) ∧
    (planTimestamps D N sd).length = N.toNat ∧
    (planTimestamps D N sd).Pairwise (· < ·) ∧
    ∀ t ∈ planTimestamps D N sd, 0 ≤ t ∧ t ≤ D - sd := by
  have hN1 : 1 < N := by omega
  have h := plan_spread_unclamped D N sd hsd hD hN1
  rw [planTimestamps_of_ok h]
  refine ⟨h, ?_, ?_, ?_⟩
  · simp
  · refine List.Pairwise.map _ (fun a b hab => ?_) (List.pairwise_lt_range N.toNat)
    exact mul_lt_mul_of_pos_right (by exact_mod_cast hab) (step_pos D N sd hD hN1)
  · intro t ht
    obtain ⟨i, hi, rfl⟩ := List.mem_map.mp ht
    have hiN : i < N.toNat := List.mem_range.mp hi
    exact ⟨mul_nonneg (Nat.cast_nonneg i) (step_pos D N sd hD hN1).le,
      index_le_span D N sd i hD hN1 hiN⟩

theorem plan_count_strict_mono_bounds_witness :
    plan 10 4 2 = .ok (planTimestamps 10 4 2) ∧
    (planTimestamps 10 4 2).length = (4 : ℤ).toNat :=
  ⟨(plan_count_strict_mono_bounds 10 4 2 (by norm_num) (by norm_num) (by norm_num)).1,
   (plan_count_strict_mono_bounds 10 4 2 (by norm_num) (by norm_num) (by norm_num)).2.1⟩

/-- C2: for D > sd > 0 and N > 1, the i-th timestamp is
`i * (D - sd) / (N - 1)` clamped to `[0, D - sd]`. -/
theorem plan_even_distribution (D : ℚ) (N : ℤ) (sd : ℚ)
    (hsd : 0 < sd) (hD : sd < D) (hN : 1 < N) :
    plan D N sd = .ok ((List.range N.toNat).map fun i : ℕ =>
      clamp ((i : ℚ) * ((D - sd) / ((N : ℚ) - 1))) 0 (D - sd)) :=
  plan_spread D N sd hsd hD hN

theorem plan_even_distribution_witness : plan 10 4 2 = .ok [0, 8/3, 16/3, 8] :=
  (plan_even_distribution 10 4 2 (by norm_num) (by norm_num) (by norm_num)).trans (by
    norm_num [clamp, show (4:ℤ).toNat = 4 from rfl, List.range_succ,
      List.flatMap_cons, List.flatMap_nil, min_def, max_def])

/-- Short-source branch: for 0 < D ≤ sd and N ≥ 1 the planner returns [0]. -/
theorem plan_short_eq (D sd : ℚ) (N : ℤ)
    (hD : 0 < D) (hDsd : D ≤ sd) (hN : 1 ≤ N) :
    plan D N sd = .ok [0] := by
  have hguard : ¬(D ≤ 0 ∨ N < 1 ∨ sd ≤ 0) := by
    push_neg
    exact ⟨hD, by omega, by linarith⟩
  unfold plan calculate_sample_seconds
  rw [if_neg hguard, if_pos hDsd]

/-- C3: for 0 < D ≤ sd and N ≥ 1 the planner returns exactly the single
timestamp 0. -/
theorem plan_short_video_single_zero (D sd : ℚ) (N : ℤ)
    (hD : 0 < D) (hDsd : D ≤ sd) (hN : 1 ≤ N) :
    plan D N sd = .ok [0] :=
  plan_short_eq D sd N hD hDsd hN

theorem plan_short_video_single_zero_witness : plan (3/2) 4 2 = .ok [0] :=
  plan_short_video_single_zero (3/2) 2 4 (by norm_num) (by norm_num) (by norm_num)

/-- Single-sample branch: for sd < D the planner centers the lone sample. -/
theorem plan_single_eq (D sd : ℚ) (hsd : 0 < sd) (hD : sd < D) :
    plan D 1 sd = .ok [(D - sd) / 2] := by
  have hguard : ¬(D ≤ 0 ∨ (1 : ℤ) < 1 ∨ sd ≤ 0) := by
    push_neg
    exact ⟨by linarith, by omega, by linarith⟩
  unfold plan calculate_sample_seconds
  rw [if_neg hguard, if_neg (by linarith : ¬ D ≤ sd), if_pos rfl]

/-- C5: for D > sd > 0, `plan D 1 sd` is the centered single sample
`[(D - sd) / 2]`. -/
theorem plan_single_sample_centered (D sd : ℚ) (hsd : 0 < sd) (hD : sd < D) :
    plan D 1 sd = .ok [(D - sd) / 2] :=
  plan_single_eq D sd hsd hD

theorem plan_single_sample_centered_witness : plan 20 1 2 = .ok [9] :=
  (plan_single_sample_centered 20 2 (by norm_num) (by norm_num)).trans (by norm_num)

/-- C6: the planner signals InvalidInput exactly when `D ≤ 0`, `N < 1` or
`sd ≤ 0`. -/
theorem plan_invalid_input_iff (D : ℚ) (N : ℤ) (sd : ℚ) :
    plan D N sd = .error .invalidInput ↔ (D ≤ 0 ∨ N < 1 ∨ sd ≤ 0) := by
  unfold plan calculate_sample_seconds
  by_cases h : D ≤ 0 ∨ N < 1 ∨ sd ≤ 0
  · simp [h]
  · rw [if_neg h]
    constructor
    · intro hc
      exfalso
      by_cases hds : D ≤ sd
      · rw [if_pos hds] at hc
        exact Except.noConfusion hc
      · rw [if_neg hds] at hc
        by_cases hN1 : N = 1
        · simp only [if_pos hN1] at hc
          exact Except.noConfusion hc
        · simp only [if_neg hN1] at hc
          exact Except.noConfusion hc
    · intro hc
      exact absurd hc h

/-- C4 (amended): for valid inputs every planned timestamp t satisfies
`0 ≤ t` and `t ≤ max (D - sd) 0`; when `sd ≤ D` this gives
`t + sd ≤ D`, but when `D < sd` the single timestamp 0 starts a sample
extending past the end of the source. -/
theorem plan_timestamps_in_range (D : ℚ) (N : ℤ) (sd : ℚ) (l : List ℚ)
    (hD : 0 < D) (hN : 1 ≤ N) (hsd : 0 < sd)
    (hl : plan D N sd = .ok l) :
    ∀ t ∈ l, 0 ≤ t ∧ t ≤ max (D - sd) 0 := by
  by_cases hds : D ≤ sd
  · rw [plan_short_eq D sd N hD hds hN] at hl
    cases Except.ok.inj hl
    intro t ht
    simp only [List.mem_singleton] at ht
    subst ht
    exact ⟨le_refl 0, le_max_right _ _⟩
  · push_neg at hds
    by_cases hN1 : N = 1
    · subst hN1
      rw [plan_single_eq D sd hsd hds] at hl
      cases Except.ok.inj hl
      intro t ht
      simp only [List.mem_singleton] at ht
      subst ht
      constructor
      · exact div_nonneg (by linarith) (by norm_num)
      · exact le_trans (by linarith) (le_max_left (D - sd) 0)
    · have hN2 : 1 < N := by omega
      rw [plan_spread D N sd hsd hds hN2] at hl
      cases Except.ok.inj hl
      intro t ht
      obtain ⟨i, hi, rfl⟩ := List.mem_map.mp ht
      obtain ⟨h1, h2⟩ := clamp_bounds ((i : ℚ) * ((D - sd) / ((N : ℚ) - 1)))
        (D - sd) (by linarith)
      exact ⟨h1, h2.trans (le_max_left _ _)⟩

theorem plan_timestamps_in_range_witness :
    0 ≤ (8/3 : ℚ) ∧ (8/3 : ℚ) ≤ max (10 - 2 : ℚ) 0 :=
  plan_timestamps_in_range 10 4 2 [0, 8/3, 16/3, 8] (by norm_num) (by norm_num)
    (by norm_num) plan_eval_scenario_a (8/3) (by norm_num)

/-- C4 counterexample: at D = 3/2, N = 4, sd = 2 (a valid input) the planner
returns the timestamp 0 whose sample interval [0, 2] extends past the source
end 3/2. -/
theorem plan_interval_exceeds_duration_cex :
    plan (3/2) 4 2 = .ok [0] ∧ ¬((0 : ℚ) + 2 ≤ 3/2) :=
  ⟨plan_short_eq (3/2) 2 4 (by norm_num) (by norm_num) (by norm_num), by norm_num⟩

/-!
### `lambda_function.py`

The handler and its module-level configuration are embedded from the source.
Python strings are Lean `String`s; the string helpers below mirror
`str.split` (single-character separator), `os.path.basename`,
`os.path.join`, `str.lower` and `int()` so that they evaluate inside the
kernel.  The black-box collaborators (S3 download/upload, `ffmpeg.probe`,
`generate_video_preview`, `os.remove`) are oracles recorded in `HandlerEnv`:
each field is the outcome the corresponding external call would produce.
-/

/-- Python `str.split(sep)` on the character list, single-character `sep`. -/
def qsplit (c : Char) : List Char → List (List Char)
  | [] => [[]]
  | a :: rest =>
    match qsplit c rest with
    | [] => [[]]
    | h :: t => if a = c then [] :: h :: t else (a :: h) :: t

/-- Python `s.split(sep)` for a single-character separator. -/
def pysplit (c : Char) (s : String) : List String :=
  (qsplit c s.toList).map List.asString

/-- `os.path.basename`: the part of the path after the last `/`. -/
def basename (s : String) : String :=
  (pysplit '/' s).getLastD ""

/-- `os.path.join a b` for a non-absolute, slash-free second component. -/
def os_path_join (a b : String) : String :=
  if b.toList.headD ' ' = '/' then b
  else if a.toList = [] then b
  else if a.toList.getLastD ' ' = '/' then a ++ b
  else a ++ "/" ++ b

/-- Numeric value of an ASCII digit. -/
def digitVal (c : Char) : Option ℕ :=
  if '0' ≤ c ∧ c ≤ '9' then some (c.toNat - '0'.toNat) else none

def parseDigits : List Char → Option ℕ
  | [] => none
  | [c] => digitVal c
  | c :: rest => do
    let d ← digitVal c
    let r ← parseDigits rest
    pure (d * 10 ^ rest.length + r)

/-- Python `int(s)` (sign and decimal digits; `none` models the raised
`ValueError`). -/
def toIntModel (s : String) : Option ℤ :=
  match s.toList with
  | '-' :: rest => (parseDigits rest).map (fun n => -(n : ℤ))
  | l => (parseDigits l).map (fun n => (n : ℤ))

/-- Python `str.lower` on ASCII. -/
def lowerChar (c : Char) : Char :=
  if 'A' ≤ c ∧ c ≤ 'Z' then Char.ofNat (c.toNat + 32) else c

def lowerStr (s : String) : String := (s.toList.map lowerChar).asString

/-- The process environment: the value `os.getenv` returns for each variable
`lambda_function.py` reads (`none` = variable absent).  The field
`s3_output_pfx` holds the variable named `"s3_output_prefix"`. -/
structure EnvVars where
  samples : Option String
  sample_duration : Option String
  scale : Option String
  format : Option String
  s3_output_pfx : Option String
  debug : Option String
  output_bucket : Option String
deriving DecidableEq

/-- The module-level configuration of `lambda_function.py` (the spec's
`PreviewConfig`). -/
structure Config where
  samples : ℤ
  sample_duration : ℤ
  scale : Option String
  format : String
  s3_output_pfx : String
  debug : Bool
deriving DecidableEq

/-- Module-level configuration loading (`lambda_function.py` lines 12-18):
`samples = int(os.getenv("samples", "4"))`,
`sample_duration = int(os.getenv("sample_duration", "2"))`,
`scale = os.getenv("scale")`, `format = os.getenv("format", "mp4")`,
`s3_output_prefix = os.getenv("s3_output_prefix", "output")`,
`debug = os.getenv("debug", "false").lower() == "true"`.
`none` models `int()` raising `ValueError` at import time. -/
def loadConfig (env : EnvVars) : Option Config := do
  let samples ← toIntModel (env.samples.getD "4")
  let sample_duration ← toIntModel (env.sample_duration.getD "2")
  pure { samples := samples, sample_duration := sample_duration,
         scale := env.scale, format := env.format.getD "mp4",
         s3_output_pfx := env.s3_output_pfx.getD "output",
         debug := lowerStr (env.debug.getD "false") == "true" }

/-- Outcome of `ffmpeg.probe` followed by
`float(probe["format"]["duration"])`: either the engine raised
`ffmpeg.Error` (with its stderr diagnostic), or probing succeeded and the
duration field parsed to `some d`, or was unparseable (`none`, in which case
`float()` raises `ValueError`). -/
inductive ProbeResult where
  | engineError (stderr : String)
  | metadata (duration : Option ℚ)
deriving DecidableEq

/-- One invocation's event data plus the outcomes of the external calls the
handler makes.  `key` is the S3 object key after `urllib.parse.unquote_plus`
decoding (the decoding itself is excluded I/O glue). -/
structure HandlerEnv where
  bucket : String
  key : String
  download_ok : Bool
  probe : ProbeResult
  preview_ok : Bool
  upload_ok : Bool
  cleanup_ok : Bool
deriving DecidableEq

/-- The exception (if any) that propagates out of `lambda_handler`. -/
inductive HandlerError where
  | unpackError
  | downloadError
  | probeError (stderr : String)
  | durationValueError
  | planInvalidInput
  | previewError
  | uploadError
deriving DecidableEq

/-- The handler's success response (`statusCode` plus the `body` fields). -/
structure Response where
  statusCode : ℕ
  message : String
  input_key : String
  output_key : String
  bucket : String
deriving DecidableEq

inductive HandlerOutcome where
  | raised (e : HandlerError)
  | success (r : Response)
deriving DecidableEq

/-- Which pipeline steps were entered during the invocation. -/
structure StepsRun where
  download : Bool
  probe : Bool
  plan : Bool
  preview : Bool
  upload : Bool
deriving DecidableEq

structure HandlerResult where
  outcome : HandlerOutcome
  steps : StepsRun
  warnings : List String
deriving DecidableEq

/-- `lambda_handler` of `lambda_function.py`, embedded step by step:
`file_name, file_ext = os.path.basename(key).split(".")` (raises
`ValueError` unless the split has exactly two parts);
`output_key = os.path.join(s3_output_prefix, file_name + "_prev." + format)`;
download (failure logged and re-raised); `ffmpeg.probe` +
`float(probe["format"]["duration"])` (`ffmpeg.Error` is caught, logged and
re-raised; an unparseable duration raises `ValueError`, which the
`except ffmpeg.Error` clause does not catch);
`calculate_sample_seconds(video_duration, samples, sample_duration)`
(errors propagate); `generate_video_preview` (failure logged and re-raised);
upload (failure logged and re-raised); cleanup of the temporary input file
(failure only logged as a warning); finally the 200 response. -/
def lambda_handler (cfg : Config) (env : HandlerEnv) : HandlerResult :=
  let parts := pysplit '.' (basename env.key)
  if parts.length ≠ 2 then
    ⟨.raised .unpackError, ⟨false, false, false, false, false⟩, []⟩
  else
    let file_name := parts.headD ""
    let output_key := os_path_join cfg.s3_output_pfx
      (file_name ++ "_prev." ++ cfg.format)
    if ¬ env.download_ok then
      ⟨.raised .downloadError, ⟨true, false, false, false, false⟩, []⟩
    else
      match env.probe with
      | .engineError stderr =>
        ⟨.raised (.probeError stderr), ⟨true, true, false, false, false⟩, []⟩
      | .metadata none =>
        ⟨.raised .durationValueError, ⟨true, true, false, false, false⟩, []⟩
      | .metadata (some video_duration) =>
        match calculate_sample_seconds video_duration cfg.samples
          (cfg.sample_duration : ℚ) with
        | .error _ =>
          ⟨.raised .planInvalidInput, ⟨true, true, true, false, false⟩, []⟩
        | .ok _sample_seconds =>
          if ¬ env.preview_ok then
            ⟨.raised .previewError, ⟨true, true, true, true, false⟩, []⟩
          else if ¬ env.upload_ok then
            ⟨.raised .uploadError, ⟨true, true, true, true, true⟩, []⟩
          else
            ⟨.success ⟨200, "Video preview generated successfully",
                env.key, output_key, env.bucket⟩,
             ⟨true, true, true, true, true⟩,
             if env.cleanup_ok then []
             else ["Failed to clean up temporary file"]⟩

/-- `true` when the outcome is the re-raised engine error of the probe step,
i.e. carries the engine's diagnostic text. -/
def isProbeDiagnostic : HandlerOutcome → Bool
  | .raised (.probeError _) => true
  | _ => false

/-- C8: with the corresponding environment variables absent, the loaded
configuration defaults to sample_count 4, sample_duration 2, format "mp4",
and scale unset. -/
theorem config_defaults (env : EnvVars)
    (h1 : env.samples = none) (h2 : env.sample_duration = none)
    (h3 : env.format = none) (h4 : env.scale = none) :
    (loadConfig env).map Config.samples = some 4 ∧
    (loadConfig env).map Config.sample_duration = some 2 ∧
    (loadConfig env).map Config.format = some "mp4" ∧
    (loadConfig env).map Config.scale = some none := by
  unfold loadConfig
  rw [h1, h2, h3, h4]
  rw [show toIntModel (Option.getD none "4") = some 4 from by decide,
      show toIntModel (Option.getD none "2") = some 2 from by decide]
  simp

theorem config_defaults_witness :
    (loadConfig ⟨none, none, none, none, none, none, none⟩).map
      Config.samples = some 4 ∧
    (loadConfig ⟨none, none, none, none, none, none, none⟩).map
      Config.sample_duration = some 2 ∧
    (loadConfig ⟨none, none, none, none, none, none, none⟩).map
      Config.format = some "mp4" ∧
    (loadConfig ⟨none, none, none, none, none, none, none⟩).map
      Config.scale = some none :=
  config_defaults ⟨none, none, none, none, none, none, none⟩ rfl rfl rfl rfl

/-- C9: when the key's basename does not split on "." into exactly two
parts, the handler raises the unpacking `ValueError` before the download or
any processing step runs. -/
theorem handler_requires_two_part_basename (cfg : Config) (env : HandlerEnv)
    (h : (pysplit '.' (basename env.key)).length ≠ 2) :
    lambda_handler cfg env =
      ⟨.raised .unpackError, ⟨false, false, false, false, false⟩, []⟩ := by
  simp [lambda_handler, h]

theorem handler_requires_two_part_basename_witness :
    lambda_handler ⟨4, 2, none, "mp4", "output", false⟩
        ⟨"bkt", "a.b.mp4", true, .metadata (some 10), true, true, true⟩ =
      ⟨.raised .unpackError, ⟨false, false, false, false, false⟩, []⟩ :=
  handler_requires_two_part_basename _ _ (by decide)

/-- C7 (amended): with a well-formed key and a successful download, a probe
engine failure terminates the invocation with the engine error carrying its
diagnostic text, while an unparseable duration terminates it with the bare
`ValueError` from `float(...)` (the `except ffmpeg.Error` clause does not
catch it, so no engine diagnostic is attached); in both cases the plan,
preview-generation and upload steps never run, so no output is produced. -/
theorem probe_failure_stops_invocation (cfg : Config) (env : HandlerEnv)
    (hsplit : (pysplit '.' (basename env.key)).length = 2)
    (hdl : env.download_ok = true) :
    (∀ stderr, env.probe = .engineError stderr →
      lambda_handler cfg env =
        ⟨.raised (.probeError stderr), ⟨true, true, false, false, false⟩, []⟩) ∧
    (env.probe = .metadata none →
      lambda_handler cfg env =
        ⟨.raised .durationValueError, ⟨true, true, false, false, false⟩, []⟩) := by
  constructor
  · intro stderr hp
    simp [lambda_handler, hsplit, hdl, hp]
  · intro hp
    simp [lambda_handler, hsplit, hdl, hp]

theorem probe_failure_stops_invocation_witness :
    lambda_handler ⟨4, 2, none, "mp4", "output", false⟩
        ⟨"bkt", "vid.mp4", true, .engineError "boom", true, true, true⟩ =
      ⟨.raised (.probeError "boom"), ⟨true, true, false, false, false⟩, []⟩ :=
  (probe_failure_stops_invocation ⟨4, 2, none, "mp4", "output", false⟩
    ⟨"bkt", "vid.mp4", true, .engineError "boom", true, true, true⟩
    (by decide) rfl).1 "boom" rfl

/-- C7 counterexample: with a successfully probed but unparseable duration
the handler raises the bare `ValueError`, not the probe-failure error
carrying the engine's diagnostic text. -/
theorem probe_unparseable_no_diagnostic_cex :
    (lambda_handler ⟨4, 2, none, "mp4", "output", false⟩
        ⟨"bkt", "vid.mp4", true, .metadata none, true, true, true⟩).outcome =
      .raised .durationValueError ∧
    isProbeDiagnostic (lambda_handler ⟨4, 2, none, "mp4", "output", false⟩
        ⟨"bkt", "vid.mp4", true, .metadata none, true, true, true⟩).outcome
      = false := by
  decide

/-- C10: when every step up to and including the upload succeeds (with a
parseable duration and a valid sample plan), the handler returns the 200
response with the input key, output key and bucket — `env.cleanup_ok` is
unconstrained, so a failing temporary-file deletion never changes the
response; it is only recorded as a logged warning. -/
theorem upload_success_returns_200 (cfg : Config) (env : HandlerEnv)
    (d : ℚ) (ss : List ℚ)
    (hsplit : (pysplit '.' (basename env.key)).length = 2)
    (hdl : env.download_ok = true)
    (hprobe : env.probe = .metadata (some d))
    (hplan : calculate_sample_seconds d cfg.samples (cfg.sample_duration : ℚ)
      = .ok ss)
    (hprev : env.preview_ok = true)
    (hupl : env.upload_ok = true) :
    (lambda_handler cfg env).outcome =
      .success ⟨200, "Video preview generated successfully", env.key,
        os_path_join cfg.s3_output_pfx
          (((pysplit '.' (basename env.key)).headD "") ++ "_prev." ++ cfg.format),
        env.bucket⟩ ∧
    (lambda_handler cfg env).warnings =
      (if env.cleanup_ok then [] else ["Failed to clean up temporary file"]) := by
  constructor <;> simp [lambda_handler, hsplit, hdl, hprobe, hplan, hprev, hupl]

theorem upload_success_returns_200_witness :
    (lambda_handler ⟨4, 2, none, "mp4", "output", false⟩
        ⟨"bkt", "in/vid.mp4", true, .metadata (some 10), true, true, false⟩).outcome =
      .success ⟨200, "Video preview generated successfully", "in/vid.mp4",
        "output/vid_prev.mp4", "bkt"⟩ ∧
    (lambda_handler ⟨4, 2, none, "mp4", "output", false⟩
        ⟨"bkt", "in/vid.mp4", true, .metadata (some 10), true, true, false⟩).warnings =
      ["Failed to clean up temporary file"] := by
  have h := upload_success_returns_200 ⟨4, 2, none, "mp4", "output", false⟩
    ⟨"bkt", "in/vid.mp4", true, .metadata (some 10), true, true, false⟩
    10 [0, 8/3, 16/3, 8] (by decide) rfl rfl
    (by exact_mod_cast plan_eval_scenario_a) rfl rfl
  exact ⟨h.1.trans (by decide), h.2.trans (by decide)⟩
